import Mathlib

/-
  Verification development for `reddit_deleter.py`.

  The Python source is shallowly embedded below.  Network effects (the praw
  client, the platform API) and the JSON standard library are collaborators:
  their observable results are supplied as explicit data (per-item edit/delete
  results, an environment record for the OAuth flow, a `Json` value tree for
  file contents), and the embedded functions reproduce the source's control
  flow over those results.  Side-effecting calls issued by the source
  (`comment.edit`, `comment.delete`, `time.sleep`) are recorded in an explicit
  event trace so that ordering and occurrence properties can be stated.
-/

namespace RedditDeleter

/-- `REPLACEMENT_TEXT = "[deleted]"` — module constant of `reddit_deleter.py`
(line 19): replacement text used to overwrite content before deletion. -/
def REPLACEMENT_TEXT : String := "[deleted]"

/-! ## JSON collaborator model (Python `json` module values) -/

/-- A parsed JSON value, as produced by Python's `json.load`. -/
inductive Json where
  | null
  | bool (b : Bool)
  | num (n : Int)
  | str (s : String)
  | arr (xs : List Json)
  | obj (kvs : List (String × Json))

/-- Python truthiness of a JSON-derived value (`if x:`). -/
def pyTruthy : Json → Bool
  | Json.null => false
  | Json.bool b => b
  | Json.num n => n != 0
  | Json.str s => !(s == "")
  | Json.arr xs => !xs.isEmpty
  | Json.obj kvs => !kvs.isEmpty

/-- Python truthiness of an optional value (`None` is falsy). -/
def optJsonTruthy : Option Json → Bool
  | none => false
  | some j => pyTruthy j

/-- Python truthiness of an optional string (`None` and `""` are falsy). -/
def pyStrOptTruthy : Option String → Bool
  | none => false
  | some s => !(s == "")

/-- `dict` built by `json.load`: later duplicate keys override earlier ones. -/
def lookupLast (kvs : List (String × Json)) (k : String) : Option Json :=
  kvs.foldl (fun acc kv => if kv.1 == k then some kv.2 else acc) none

/-- Python `data.get(k)`: `None` when the key is missing; a stored JSON `null`
is Python `None` as well, hence indistinguishable from a missing key. -/
def pyDictGet (kvs : List (String × Json)) (k : String) : Option Json :=
  match lookupLast kvs k with
  | some Json.null => none
  | some v => some v
  | none => none

/-! ## Token Store (`_save_refresh_token` / `_load_refresh_token`) -/

/-- State of the `reddit_token.json` file on disk. -/
inductive TokenFile where
  | absent
  | unparseable
  | parsed (j : Json)

/-- `os.path.exists(TOKEN_FILE)`. -/
def tokenFileExists : TokenFile → Bool
  | TokenFile.absent => false
  | _ => true

/-- `_save_refresh_token` (lines 91-95): writes
`json.dump({'refresh_token': refresh_token}, f)`. -/
def save_refresh_token (refresh_token : String) : TokenFile :=
  TokenFile.parsed (Json.obj [("refresh_token", Json.str refresh_token)])

/-- `_load_refresh_token` (lines 97-106).  A missing file returns `None`;
`json.JSONDecodeError`/`IOError` are caught and return `None`; but when the
file parses to a JSON value that is not an object, `data.get` raises an
uncaught `AttributeError` (only decode/IO errors are caught), modelled as
`Except.error`. -/
def load_refresh_token : TokenFile → Except String (Option Json)
  | TokenFile.absent => Except.ok none
  | TokenFile.unparseable => Except.ok none
  | TokenFile.parsed j =>
    match j with
    | Json.obj kvs => Except.ok (pyDictGet kvs "refresh_token")
    | _ => Except.error "AttributeError"

/-! ## Redaction loops (`overwrite_and_delete_comments` / `_posts`) -/

/-- An observable side-effecting call issued by the redaction loops. -/
inductive Event where
  | editCall (id : String) (text : String)
  | deleteCall (id : String)
  | sleep (delay : Nat)
deriving DecidableEq

deriving instance DecidableEq for Except

/-- A comment to be processed; `editResult` and `deleteResult` are the
collaborator responses of `comment.edit(REPLACEMENT_TEXT)` and
`comment.delete()` (`Except.error msg` models a raised exception whose
`str` is `msg`). -/
structure Comment where
  id : String
  editResult : Except String Unit
  deleteResult : Except String Unit
deriving DecidableEq

/-- A submission to be processed; `is_self` is the `post.is_self` flag. -/
structure Post where
  id : String
  is_self : Bool
  editResult : Except String Unit
  deleteResult : Except String Unit
deriving DecidableEq

/-- Per-item result of one loop iteration: either the success path
(`successful_count += 1`) or the `except` path (`failed_items.append`). -/
inductive Outcome where
  | success (id : String)
  | failed (id : String) (reason : String)
deriving DecidableEq

/-- The calls issued for one comment (loop body, lines 215-238): the edit is
always attempted; on edit success `time.sleep(delay)` runs; an edit failure
is caught by the inner `except` and the delete is attempted regardless; on
delete success `time.sleep(delay)` runs, on delete failure the exception
jumps to the outer handler (no further calls for this item). -/
def commentEvents (delay : Nat) (c : Comment) : List Event :=
  (Event.editCall c.id REPLACEMENT_TEXT ::
    (match c.editResult with
     | Except.ok _ => [Event.sleep delay]
     | Except.error _ => [])) ++
  (match c.deleteResult with
   | Except.ok _ => [Event.deleteCall c.id, Event.sleep delay]
   | Except.error _ => [Event.deleteCall c.id])

/-- The calls issued for one post (loop body, lines 266-292): the edit is
attempted only when `post.is_self`; otherwise the loop proceeds directly to
the delete. -/
def postEvents (delay : Nat) (p : Post) : List Event :=
  (if p.is_self then
    Event.editCall p.id REPLACEMENT_TEXT ::
      (match p.editResult with
       | Except.ok _ => [Event.sleep delay]
       | Except.error _ => [])
   else []) ++
  (match p.deleteResult with
   | Except.ok _ => [Event.deleteCall p.id, Event.sleep delay]
   | Except.error _ => [Event.deleteCall p.id])

/-- Which branch the iteration for a comment ends in: only the delete call can
raise past the inner handler, so the outcome is decided by `deleteResult`. -/
def commentOutcome (c : Comment) : Outcome :=
  match c.deleteResult with
  | Except.ok _ => Outcome.success c.id
  | Except.error e => Outcome.failed c.id e

/-- The `failed_items` entry `(comment.id, error_msg)` appended for a comment,
if any. -/
def commentFailure (c : Comment) : Option (String × String) :=
  match c.deleteResult with
  | Except.ok _ => none
  | Except.error e => some (c.id, e)

/-- Whether the iteration for a comment reaches `successful_count += 1`. -/
def commentSucceeds (c : Comment) : Bool :=
  match c.deleteResult with
  | Except.ok _ => true
  | Except.error _ => false

/-- Post analogue of `commentOutcome`. -/
def postOutcome (p : Post) : Outcome :=
  match p.deleteResult with
  | Except.ok _ => Outcome.success p.id
  | Except.error e => Outcome.failed p.id e

/-- Post analogue of `commentFailure`. -/
def postFailure (p : Post) : Option (String × String) :=
  match p.deleteResult with
  | Except.ok _ => none
  | Except.error e => some (p.id, e)

/-- Post analogue of `commentSucceeds`. -/
def postSucceeds (p : Post) : Bool :=
  match p.deleteResult with
  | Except.ok _ => true
  | Except.error _ => false

/-- Loop state: the source's accumulators `successful_count` and
`failed_items`, instrumented with the event trace `events` and the per-item
outcome trace `outcomes`. -/
structure LoopState where
  events : List Event
  outcomes : List Outcome
  successful_count : Nat
  failed_items : List (String × String)
deriving DecidableEq

/-- The state before the `for` loop: `failed_items = []`,
`successful_count = 0`. -/
def initState : LoopState :=
  { events := [], outcomes := [], successful_count := 0, failed_items := [] }

/-- One iteration of the comment loop (lines 215-238). -/
def stepComment (delay : Nat) (s : LoopState) (c : Comment) : LoopState :=
  match c.deleteResult with
  | Except.ok _ =>
    { events := s.events ++ commentEvents delay c
      outcomes := s.outcomes ++ [Outcome.success c.id]
      successful_count := s.successful_count + 1
      failed_items := s.failed_items }
  | Except.error e =>
    { events := s.events ++ commentEvents delay c
      outcomes := s.outcomes ++ [Outcome.failed c.id e]
      successful_count := s.successful_count
      failed_items := s.failed_items ++ [(c.id, e)] }

/-- `overwrite_and_delete_comments` (lines 195-244), as the fold of the loop
body over the eagerly materialized comment list. -/
def overwrite_and_delete_comments (comments : List Comment) (delay : Nat) :
    LoopState :=
  comments.foldl (stepComment delay) initState

/-- One iteration of the post loop (lines 266-292). -/
def stepPost (delay : Nat) (s : LoopState) (p : Post) : LoopState :=
  match p.deleteResult with
  | Except.ok _ =>
    { events := s.events ++ postEvents delay p
      outcomes := s.outcomes ++ [Outcome.success p.id]
      successful_count := s.successful_count + 1
      failed_items := s.failed_items }
  | Except.error e =>
    { events := s.events ++ postEvents delay p
      outcomes := s.outcomes ++ [Outcome.failed p.id e]
      successful_count := s.successful_count
      failed_items := s.failed_items ++ [(p.id, e)] }

/-- `overwrite_and_delete_posts` (lines 246-298). -/
def overwrite_and_delete_posts (posts : List Post) (delay : Nat) : LoopState :=
  posts.foldl (stepPost delay) initState

/-- `delete_all` (lines 300-335): comments first, then posts, with the failed
items of both tagged `"comment"` / `"post"` and concatenated. -/
def delete_all (comments : List Comment) (posts : List Post) (delay : Nat) :
    List Event × List (String × String × String) :=
  let cst := overwrite_and_delete_comments comments delay
  let pst := overwrite_and_delete_posts posts delay
  (cst.events ++ pst.events,
   cst.failed_items.map (fun it => ("comment", it.1, it.2)) ++
     pst.failed_items.map (fun it => ("post", it.1, it.2)))

/-! ## Confirmation gate (`main`, lines 375-385) -/

/-- Characters removed by Python's `str.strip()` (ASCII whitespace; the
inputs of interest are ASCII). -/
def pyIsSpace (c : Char) : Bool :=
  c == ' ' || c == '\t' || c == '\n' || c == '\r' || c == '\x0b' || c == '\x0c'

/-- Python `response.strip()`. -/
def pythonStrip (s : String) : String :=
  String.mk (((s.data.dropWhile pyIsSpace).reverse.dropWhile pyIsSpace).reverse)

/-- What happens after the confirmation prompt: either `delete_all()` runs
(with its observable calls), or the program prints "Deletion cancelled." and
calls `sys.exit(0)` with no further calls. -/
inductive GateOutcome where
  | proceeded (events : List Event) (allFailed : List (String × String × String))
  | cancelled (exitCode : Nat)
deriving DecidableEq

/-- Lines 379-385: `if response.strip() == 'DELETE': deleter.delete_all()
else: sys.exit(0)`.  `delete_all` is called with its default `delay=2`. -/
def mainConfirmGate (response : String) (comments : List Comment)
    (posts : List Post) : GateOutcome :=
  if pythonStrip response = "DELETE" then
    GateOutcome.proceeded (delete_all comments posts 2).1
      (delete_all comments posts 2).2
  else
    GateOutcome.cancelled 0

/-! ## OAuth callback handler and `authenticate` -/

/-- The mutable fields the handler stores on the server object
(`server.auth_code`, `server.auth_error`, both initialized to `None`). -/
structure ServerState where
  auth_code : Option String
  auth_error : Option String
deriving DecidableEq

/-- `'k' in query_params` / `query_params['k'][0]` over the parsed query
(a key is present iff `parse_qs` kept at least one value for it). -/
def parse_qs_first (q : List (String × String)) (key : String) :
    Option String :=
  (q.find? (fun kv => kv.1 == key)).map (fun kv => kv.2)

/-- `OAuthCallbackHandler.do_GET` (lines 28-66): records the `code` (reply
200) or else the `error` (reply 400); with neither parameter it records
nothing and sends no response. -/
def do_GET (q : List (String × String)) (s : ServerState) :
    ServerState × Option Nat :=
  match parse_qs_first q "code" with
  | some c => ({ s with auth_code := some c }, some 200)
  | none =>
    match parse_qs_first q "error" with
    | some e => ({ s with auth_error := some e }, some 400)
    | none => (s, none)

/-- Collaborator responses consumed by `authenticate`: the token file state,
the result of `reddit.user.me()` under the stored token, the single callback
request's parsed query, the result of `reddit.auth.authorize(code)`, and the
result of the final `reddit.user.me()`. -/
structure AuthEnv where
  fs : TokenFile
  storedMeResult : Except String String
  callbackQuery : List (String × String)
  exchangeResult : Except String String
  finalMeResult : Except String String

/-- Observable result of `authenticate`: final token file state, the
username or the raised exception's message, whether the browser flow ran,
whether `os.remove(TOKEN_FILE)` ran, how many callback requests the local
server handled, the `state` argument passed to `reddit.auth.url` (if the
interactive flow ran), and the HTTP status the handler sent back. -/
structure AuthResult where
  fs : TokenFile
  outcome : Except String String
  interactive : Bool
  removedTokenFile : Bool
  handledRequests : Nat
  authUrlState : Option String
  httpResponse : Option Nat

/-- The browser-based flow (lines 136-193): builds the authorization URL with
the literal state string `'random_state'` (line 154), handles exactly one
callback request, then checks `server.auth_error`, then
`if not server.auth_code`, then exchanges the code, saves the refresh token
and fetches the username. -/
def interactiveFlow (fs : TokenFile) (removed : Bool) (env : AuthEnv) :
    AuthResult :=
  let r := do_GET env.callbackQuery { auth_code := none, auth_error := none }
  let fileAndOutcome : TokenFile × Except String String :=
    if pyStrOptTruthy r.1.auth_error then
      (fs, Except.error ("Authentication failed: " ++ r.1.auth_error.getD ""))
    else if !(pyStrOptTruthy r.1.auth_code) then
      (fs, Except.error "No authorization code received")
    else
      match env.exchangeResult with
      | Except.error e => (fs, Except.error e)
      | Except.ok token =>
        match env.finalMeResult with
        | Except.error e => (save_refresh_token token, Except.error e)
        | Except.ok name => (save_refresh_token token, Except.ok name)
  { fs := fileAndOutcome.1
    outcome := fileAndOutcome.2
    interactive := true
    removedTokenFile := removed
    handledRequests := 1
    authUrlState := some "random_state"
    httpResponse := r.2 }

/-- `authenticate` (lines 108-193): try the saved refresh token first
(`if refresh_token:` is a truthiness test); on a validation failure remove
the token file (`if os.path.exists(TOKEN_FILE): os.remove(TOKEN_FILE)`) and
fall through to the browser flow; with no (truthy) saved token go straight
to the browser flow with the file untouched.  An exception raised by
`_load_refresh_token` itself propagates. -/
def authenticate (env : AuthEnv) : AuthResult :=
  match load_refresh_token env.fs with
  | Except.error e =>
    { fs := env.fs, outcome := Except.error e, interactive := false
      removedTokenFile := false, handledRequests := 0
      authUrlState := none, httpResponse := none }
  | Except.ok rt =>
    if optJsonTruthy rt then
      match env.storedMeResult with
      | Except.ok name =>
        { fs := env.fs, outcome := Except.ok name, interactive := false
          removedTokenFile := false, handledRequests := 0
          authUrlState := none, httpResponse := none }
      | Except.error _ =>
        interactiveFlow TokenFile.absent (tokenFileExists env.fs) env
    else
      interactiveFlow env.fs false env

/-! ## Trace helper predicates -/

/-- Is the event an edit call? -/
def isEditCall : Event → Bool
  | Event.editCall _ _ => true
  | _ => false

/-- Is the event a delete call? -/
def isDeleteCall : Event → Bool
  | Event.deleteCall _ => true
  | _ => false

/-- No edit call occurs at or after the first delete call of the trace. -/
def editAfterDeleteFree (evs : List Event) : Bool :=
  match evs.dropWhile (fun e => !(isDeleteCall e)) with
  | [] => true
  | _ :: rest => rest.all (fun e => !(isEditCall e))

/-! ## Characterization of the loops -/

theorem comments_foldl (delay : Nat) (cs : List Comment) (s : LoopState) :
    cs.foldl (stepComment delay) s =
      { events := s.events ++ cs.flatMap (commentEvents delay)
        outcomes := s.outcomes ++ cs.map commentOutcome
        successful_count := s.successful_count + cs.countP commentSucceeds
        failed_items := s.failed_items ++ cs.filterMap commentFailure } := by
  induction cs generalizing s with
  | nil => simp
  | cons c cs ih =>
    rw [List.foldl_cons, ih]
    cases hd : c.deleteResult with
    | ok u =>
      simp [stepComment, hd, commentOutcome, commentFailure, commentSucceeds,
        List.countP_cons, List.filterMap_cons, LoopState.mk.injEq]
      omega
    | error e =>
      simp [stepComment, hd, commentOutcome, commentFailure, commentSucceeds,
        List.countP_cons, List.filterMap_cons, LoopState.mk.injEq]

theorem posts_foldl (delay : Nat) (ps : List Post) (s : LoopState) :
    ps.foldl (stepPost delay) s =
      { events := s.events ++ ps.flatMap (postEvents delay)
        outcomes := s.outcomes ++ ps.map postOutcome
        successful_count := s.successful_count + ps.countP postSucceeds
        failed_items := s.failed_items ++ ps.filterMap postFailure } := by
  induction ps generalizing s with
  | nil => simp
  | cons p ps ih =>
    rw [List.foldl_cons, ih]
    cases hd : p.deleteResult with
    | ok u =>
      simp [stepPost, hd, postOutcome, postFailure, postSucceeds,
        List.countP_cons, List.filterMap_cons, LoopState.mk.injEq]
      omega
    | error e =>
      simp [stepPost, hd, postOutcome, postFailure, postSucceeds,
        List.countP_cons, List.filterMap_cons, LoopState.mk.injEq]

theorem overwrite_comments_spec (cs : List Comment) (delay : Nat) :
    overwrite_and_delete_comments cs delay =
      { events := cs.flatMap (commentEvents delay)
        outcomes := cs.map commentOutcome
        successful_count := cs.countP commentSucceeds
        failed_items := cs.filterMap commentFailure } := by
  simp [overwrite_and_delete_comments, comments_foldl, initState]

theorem overwrite_posts_spec (ps : List Post) (delay : Nat) :
    overwrite_and_delete_posts ps delay =
      { events := ps.flatMap (postEvents delay)
        outcomes := ps.map postOutcome
        successful_count := ps.countP postSucceeds
        failed_items := ps.filterMap postFailure } := by
  simp [overwrite_and_delete_posts, posts_foldl, initState]

/-! ## Per-item trace facts -/

theorem commentEvents_delete_once (delay : Nat) (c : Comment) :
    (commentEvents delay c).countP isDeleteCall = 1 := by
  cases he : c.editResult <;> cases hd : c.deleteResult <;>
    simp [commentEvents, he, hd, isDeleteCall, List.countP_cons]

theorem postEvents_delete_once (delay : Nat) (p : Post) :
    (postEvents delay p).countP isDeleteCall = 1 := by
  cases hs : p.is_self <;> cases he : p.editResult <;> cases hd : p.deleteResult <;>
    simp [postEvents, hs, he, hd, isDeleteCall, List.countP_cons]

theorem commentEvents_eadf (delay : Nat) (c : Comment) :
    editAfterDeleteFree (commentEvents delay c) = true := by
  cases he : c.editResult <;> cases hd : c.deleteResult <;>
    simp [commentEvents, he, hd, editAfterDeleteFree, isDeleteCall, isEditCall,
      List.dropWhile]

theorem postEvents_eadf (delay : Nat) (p : Post) :
    editAfterDeleteFree (postEvents delay p) = true := by
  cases hs : p.is_self <;> cases he : p.editResult <;> cases hd : p.deleteResult <;>
    simp [postEvents, hs, he, hd, editAfterDeleteFree, isDeleteCall, isEditCall,
      List.dropWhile]

theorem commentEvents_delete_mem (delay : Nat) (c : Comment) :
    Event.deleteCall c.id ∈ commentEvents delay c := by
  cases he : c.editResult <;> cases hd : c.deleteResult <;>
    simp [commentEvents, he, hd]

theorem postEvents_delete_mem (delay : Nat) (p : Post) :
    Event.deleteCall p.id ∈ postEvents delay p := by
  cases hs : p.is_self <;> cases he : p.editResult <;> cases hd : p.deleteResult <;>
    simp [postEvents, hs, he, hd]

theorem commentEvents_edit_text (delay : Nat) (c : Comment) (id t : String)
    (h : Event.editCall id t ∈ commentEvents delay c) : t = REPLACEMENT_TEXT := by
  cases he : c.editResult <;> cases hd : c.deleteResult <;>
    simp [commentEvents, he, hd] at h <;> exact h.2

theorem postEvents_edit_text (delay : Nat) (p : Post) (id t : String)
    (h : Event.editCall id t ∈ postEvents delay p) : t = REPLACEMENT_TEXT := by
  cases hs : p.is_self <;> cases he : p.editResult <;> cases hd : p.deleteResult <;>
    simp [postEvents, hs, he, hd] at h <;> exact h.2

/-! ## Claim theorems -/

/-- C1: for every item processed by the redaction loop (every loop trace is
the concatenation of the per-item traces), if the overwrite/edit step fails
the delete is still attempted exactly once for that item, and the delete is
never attempted before the edit attempt (or the decision to skip it) has
completed: no edit call occurs at or after the delete call of the item's
trace. -/
theorem editFailure_delete_still_attempted_once
    (delay : Nat) (cs : List Comment) (ps : List Post) (c : Comment) (p : Post)
    (ce pe : String)
    (_hc : c.editResult = Except.error ce)
    (_hp : p.is_self = false ∨ p.editResult = Except.error pe) :
    (overwrite_and_delete_comments cs delay).events
        = cs.flatMap (commentEvents delay)
    ∧ (overwrite_and_delete_posts ps delay).events
        = ps.flatMap (postEvents delay)
    ∧ (commentEvents delay c).countP isDeleteCall = 1
    ∧ Event.deleteCall c.id ∈ commentEvents delay c
    ∧ editAfterDeleteFree (commentEvents delay c) = true
    ∧ (postEvents delay p).countP isDeleteCall = 1
    ∧ Event.deleteCall p.id ∈ postEvents delay p
    ∧ editAfterDeleteFree (postEvents delay p) = true := by
  refine ⟨?_, ?_, commentEvents_delete_once delay c, commentEvents_delete_mem delay c,
    commentEvents_eadf delay c, postEvents_delete_once delay p,
    postEvents_delete_mem delay p, postEvents_eadf delay p⟩
  · rw [overwrite_comments_spec]
  · rw [overwrite_posts_spec]

theorem editFailure_delete_still_attempted_once_witness :
    (overwrite_and_delete_comments [] 2).events
        = ([] : List Comment).flatMap (commentEvents 2)
    ∧ (overwrite_and_delete_posts [] 2).events
        = ([] : List Post).flatMap (postEvents 2)
    ∧ (commentEvents 2 ⟨"c1", Except.error "err", Except.ok ()⟩).countP isDeleteCall = 1
    ∧ Event.deleteCall "c1" ∈ commentEvents 2 ⟨"c1", Except.error "err", Except.ok ()⟩
    ∧ editAfterDeleteFree (commentEvents 2 ⟨"c1", Except.error "err", Except.ok ()⟩) = true
    ∧ (postEvents 2 ⟨"p1", false, Except.ok (), Except.ok ()⟩).countP isDeleteCall = 1
    ∧ Event.deleteCall "p1" ∈ postEvents 2 ⟨"p1", false, Except.ok (), Except.ok ()⟩
    ∧ editAfterDeleteFree (postEvents 2 ⟨"p1", false, Except.ok (), Except.ok ()⟩) = true :=
  editFailure_delete_still_attempted_once 2 [] []
    ⟨"c1", Except.error "err", Except.ok ()⟩
    ⟨"p1", false, Except.ok (), Except.ok ()⟩ "err" "x" rfl (Or.inl rfl)

/-- C2: a link post (`is_self = false`) issues no edit call at all and its
trace starts directly with the delete attempt; a self post and a comment
both start with an edit attempt and the delete occurs (only) afterwards. -/
theorem linkPost_skips_edit_selfPost_and_comment_edit_first
    (delay : Nat) (p q : Post) (c : Comment)
    (hp : p.is_self = false) (hq : q.is_self = true) :
    (postEvents delay p).countP isEditCall = 0
    ∧ (postEvents delay p).head? = some (Event.deleteCall p.id)
    ∧ (postEvents delay q).head? = some (Event.editCall q.id REPLACEMENT_TEXT)
    ∧ Event.deleteCall q.id ∈ postEvents delay q
    ∧ editAfterDeleteFree (postEvents delay q) = true
    ∧ (commentEvents delay c).head? = some (Event.editCall c.id REPLACEMENT_TEXT)
    ∧ Event.deleteCall c.id ∈ commentEvents delay c
    ∧ editAfterDeleteFree (commentEvents delay c) = true := by
  refine ⟨?_, ?_, ?_, postEvents_delete_mem delay q, postEvents_eadf delay q,
    ?_, commentEvents_delete_mem delay c, commentEvents_eadf delay c⟩
  · cases he : p.editResult <;> cases hd : p.deleteResult <;>
      simp [postEvents, hp, he, hd, isEditCall, List.countP_cons]
  · cases hd : p.deleteResult <;> simp [postEvents, hp, hd]
  · cases he : q.editResult <;> simp [postEvents, hq, he]
  · cases he : c.editResult <;> simp [commentEvents, he]

theorem linkPost_skips_edit_selfPost_and_comment_edit_first_witness :
    (postEvents 2 ⟨"p1", false, Except.ok (), Except.ok ()⟩).countP isEditCall = 0
    ∧ (postEvents 2 ⟨"p1", false, Except.ok (), Except.ok ()⟩).head?
        = some (Event.deleteCall "p1")
    ∧ (postEvents 2 ⟨"p2", true, Except.ok (), Except.ok ()⟩).head?
        = some (Event.editCall "p2" REPLACEMENT_TEXT)
    ∧ Event.deleteCall "p2" ∈ postEvents 2 ⟨"p2", true, Except.ok (), Except.ok ()⟩
    ∧ editAfterDeleteFree (postEvents 2 ⟨"p2", true, Except.ok (), Except.ok ()⟩) = true
    ∧ (commentEvents 2 ⟨"c1", Except.ok (), Except.ok ()⟩).head?
        = some (Event.editCall "c1" REPLACEMENT_TEXT)
    ∧ Event.deleteCall "c1" ∈ commentEvents 2 ⟨"c1", Except.ok (), Except.ok ()⟩
    ∧ editAfterDeleteFree (commentEvents 2 ⟨"c1", Except.ok (), Except.ok ()⟩) = true :=
  linkPost_skips_edit_selfPost_and_comment_edit_first 2
    ⟨"p1", false, Except.ok (), Except.ok ()⟩
    ⟨"p2", true, Except.ok (), Except.ok ()⟩
    ⟨"c1", Except.ok (), Except.ok ()⟩ rfl rfl

/-- C3: when an item's delete attempt fails, a Failed record carrying the
error's reason text is appended (to the outcome trace and to
`failed_items`), nothing further happens for that item (its trace ends at
the single delete call, with no retry), and the remaining items of the
batch are still processed. -/
theorem deleteFailure_recorded_batch_continues
    (delay : Nat) (cs1 cs2 : List Comment) (ps1 ps2 : List Post)
    (c : Comment) (p : Post) (e ep : String)
    (hc : c.deleteResult = Except.error e)
    (hp : p.deleteResult = Except.error ep) :
    (overwrite_and_delete_comments (cs1 ++ c :: cs2) delay).outcomes
      = cs1.map commentOutcome ++ Outcome.failed c.id e :: cs2.map commentOutcome
    ∧ (overwrite_and_delete_comments (cs1 ++ c :: cs2) delay).failed_items
      = cs1.filterMap commentFailure ++ (c.id, e) :: cs2.filterMap commentFailure
    ∧ (overwrite_and_delete_comments (cs1 ++ c :: cs2) delay).events
      = cs1.flatMap (commentEvents delay)
        ++ (commentEvents delay c ++ cs2.flatMap (commentEvents delay))
    ∧ (commentEvents delay c).getLast? = some (Event.deleteCall c.id)
    ∧ (commentEvents delay c).countP isDeleteCall = 1
    ∧ (overwrite_and_delete_posts (ps1 ++ p :: ps2) delay).outcomes
      = ps1.map postOutcome ++ Outcome.failed p.id ep :: ps2.map postOutcome
    ∧ (overwrite_and_delete_posts (ps1 ++ p :: ps2) delay).failed_items
      = ps1.filterMap postFailure ++ (p.id, ep) :: ps2.filterMap postFailure
    ∧ (overwrite_and_delete_posts (ps1 ++ p :: ps2) delay).events
      = ps1.flatMap (postEvents delay)
        ++ (postEvents delay p ++ ps2.flatMap (postEvents delay))
    ∧ (postEvents delay p).getLast? = some (Event.deleteCall p.id)
    ∧ (postEvents delay p).countP isDeleteCall = 1 := by
  refine ⟨?_, ?_, ?_, ?_, commentEvents_delete_once delay c,
    ?_, ?_, ?_, ?_, postEvents_delete_once delay p⟩
  · rw [overwrite_comments_spec]
    simp [List.map_append, commentOutcome, hc]
  · rw [overwrite_comments_spec]
    simp [List.filterMap_append, List.filterMap_cons, commentFailure, hc]
  · rw [overwrite_comments_spec]
    simp [List.flatMap_append]
  · cases he : c.editResult <;> simp [commentEvents, he, hc, List.getLast?]
  · rw [overwrite_posts_spec]
    simp [List.map_append, postOutcome, hp]
  · rw [overwrite_posts_spec]
    simp [List.filterMap_append, List.filterMap_cons, postFailure, hp]
  · rw [overwrite_posts_spec]
    simp [List.flatMap_append]
  · cases hs : p.is_self <;> cases he : p.editResult <;>
      simp [postEvents, hs, he, hp, List.getLast?]

theorem deleteFailure_recorded_batch_continues_witness :
    (overwrite_and_delete_comments
        ([] ++ ⟨"c1", Except.ok (), Except.error "boom"⟩ :: []) 2).outcomes
      = ([] : List Comment).map commentOutcome
        ++ Outcome.failed "c1" "boom" :: ([] : List Comment).map commentOutcome
    ∧ (overwrite_and_delete_comments
        ([] ++ ⟨"c1", Except.ok (), Except.error "boom"⟩ :: []) 2).failed_items
      = ([] : List Comment).filterMap commentFailure
        ++ ("c1", "boom") :: ([] : List Comment).filterMap commentFailure
    ∧ (overwrite_and_delete_comments
        ([] ++ ⟨"c1", Except.ok (), Except.error "boom"⟩ :: []) 2).events
      = ([] : List Comment).flatMap (commentEvents 2)
        ++ (commentEvents 2 ⟨"c1", Except.ok (), Except.error "boom"⟩
            ++ ([] : List Comment).flatMap (commentEvents 2))
    ∧ (commentEvents 2 ⟨"c1", Except.ok (), Except.error "boom"⟩).getLast?
      = some (Event.deleteCall "c1")
    ∧ (commentEvents 2 ⟨"c1", Except.ok (), Except.error "boom"⟩).countP isDeleteCall = 1
    ∧ (overwrite_and_delete_posts
        ([] ++ ⟨"p1", true, Except.ok (), Except.error "pow"⟩ :: []) 2).outcomes
      = ([] : List Post).map postOutcome
        ++ Outcome.failed "p1" "pow" :: ([] : List Post).map postOutcome
    ∧ (overwrite_and_delete_posts
        ([] ++ ⟨"p1", true, Except.ok (), Except.error "pow"⟩ :: []) 2).failed_items
      = ([] : List Post).filterMap postFailure
        ++ ("p1", "pow") :: ([] : List Post).filterMap postFailure
    ∧ (overwrite_and_delete_posts
        ([] ++ ⟨"p1", true, Except.ok (), Except.error "pow"⟩ :: []) 2).events
      = ([] : List Post).flatMap (postEvents 2)
        ++ (postEvents 2 ⟨"p1", true, Except.ok (), Except.error "pow"⟩
            ++ ([] : List Post).flatMap (postEvents 2))
    ∧ (postEvents 2 ⟨"p1", true, Except.ok (), Except.error "pow"⟩).getLast?
      = some (Event.deleteCall "p1")
    ∧ (postEvents 2 ⟨"p1", true, Except.ok (), Except.error "pow"⟩).countP isDeleteCall = 1 :=
  deleteFailure_recorded_batch_continues 2 [] [] [] []
    ⟨"c1", Except.ok (), Except.error "boom"⟩
    ⟨"p1", true, Except.ok (), Except.error "pow"⟩ "boom" "pow" rfl rfl

/-- C5: the redaction processor produces exactly one outcome per input item
(`Outcome.success` or `Outcome.failed` with the reason), in the same
relative order as the input sequence. -/
theorem one_outcome_per_item_in_input_order
    (delay : Nat) (cs : List Comment) (ps : List Post) :
    (overwrite_and_delete_comments cs delay).outcomes = cs.map commentOutcome
    ∧ (overwrite_and_delete_comments cs delay).outcomes.length = cs.length
    ∧ (overwrite_and_delete_posts ps delay).outcomes = ps.map postOutcome
    ∧ (overwrite_and_delete_posts ps delay).outcomes.length = ps.length := by
  rw [overwrite_comments_spec, overwrite_posts_spec]
  simp

/-- C10: every edit call issued by either redaction loop carries the module
constant `REPLACEMENT_TEXT`, which is the fixed string `"[deleted]"`; the
loops take no replacement-text input, so the text is identical for every
run and every item. -/
theorem replacement_text_constant_for_all_edits
    (delay : Nat) (cs : List Comment) (ps : List Post) (id t : String)
    (h : Event.editCall id t ∈ (overwrite_and_delete_comments cs delay).events
       ∨ Event.editCall id t ∈ (overwrite_and_delete_posts ps delay).events) :
    t = REPLACEMENT_TEXT ∧ REPLACEMENT_TEXT = "[deleted]" := by
  refine ⟨?_, rfl⟩
  rcases h with h | h
  · have hs := congrArg LoopState.events (overwrite_comments_spec cs delay)
    rw [hs] at h
    rw [List.mem_flatMap] at h
    rcases h with ⟨c, _, hm⟩
    exact commentEvents_edit_text delay c id t hm
  · have hs := congrArg LoopState.events (overwrite_posts_spec ps delay)
    rw [hs] at h
    rw [List.mem_flatMap] at h
    rcases h with ⟨p, _, hm⟩
    exact postEvents_edit_text delay p id t hm

theorem replacement_text_constant_for_all_edits_witness :
    "[deleted]" = REPLACEMENT_TEXT ∧ REPLACEMENT_TEXT = "[deleted]" :=
  replacement_text_constant_for_all_edits 2
    [⟨"c1", Except.ok (), Except.ok ()⟩] [] "c1" "[deleted]"
    (Or.inl (by decide))

/-- C4 (amended): an input whose Python `strip()` equals `"DELETE"` proceeds
to `delete_all` (so the pre-trim input `"DELETE "` proceeds as well); any
input whose stripped form differs — e.g. `"delete"` or the empty string —
prints "Deletion cancelled." and exits with code 0 issuing no redaction
calls. -/
theorem confirmation_gate_trimmed_exact_match
    (response : String) (cs : List Comment) (ps : List Post) :
    (pythonStrip response = "DELETE" →
      mainConfirmGate response cs ps
        = GateOutcome.proceeded (delete_all cs ps 2).1 (delete_all cs ps 2).2)
    ∧ (pythonStrip response ≠ "DELETE" →
      mainConfirmGate response cs ps = GateOutcome.cancelled 0) := by
  constructor
  · intro h
    simp [mainConfirmGate, h]
  · intro h
    simp [mainConfirmGate, h]

theorem confirmation_gate_trimmed_exact_match_witness :
    mainConfirmGate "delete" [] [] = GateOutcome.cancelled 0 :=
  (confirmation_gate_trimmed_exact_match "delete" [] []).2 (by decide)

/-- C4 counterexample: the claim lists the pre-trim input `"DELETE "` among
the inputs on which the program exits with code 0 and makes no API calls;
in the code `"DELETE ".strip() == 'DELETE'` holds, so that input proceeds
to `delete_all` and the redaction calls are issued. -/
theorem confirmation_gate_trailing_space_proceeds :
    pythonStrip "DELETE " = "DELETE"
    ∧ mainConfirmGate "DELETE " [⟨"c1", Except.ok (), Except.ok ()⟩] []
      = GateOutcome.proceeded
          [Event.editCall "c1" "[deleted]", Event.sleep 2,
           Event.deleteCall "c1", Event.sleep 2] [] := by
  constructor
  · decide
  · decide

/-- C6 (amended): saving a refresh token and loading it back returns the
same token value; loading a non-existent file, or a file whose contents do
not parse as JSON, returns absent (`None`) without raising. -/
theorem token_store_roundtrip_and_absent (t : String) :
    load_refresh_token (save_refresh_token t) = Except.ok (some (Json.str t))
    ∧ load_refresh_token TokenFile.absent = Except.ok none
    ∧ load_refresh_token TokenFile.unparseable = Except.ok none := by
  refine ⟨?_, rfl, rfl⟩
  simp [save_refresh_token, load_refresh_token, pyDictGet, lookupLast]

/-- C6 counterexample: a token file that is malformed as a token file but is
valid JSON of non-object shape (here `[]`) makes `_load_refresh_token` raise
an uncaught `AttributeError` (`data.get` on a list; only
`json.JSONDecodeError` and `IOError` are caught), instead of returning
absent without throwing. -/
theorem token_load_nonobject_json_raises :
    load_refresh_token (TokenFile.parsed (Json.arr []))
      = Except.error "AttributeError" := rfl

/-- C7: when a stored refresh token is present (truthy) and the validating
`reddit.user.me()` call fails, `authenticate` removes the token file and
falls through to the interactive browser flow within the same call. -/
theorem invalid_stored_token_removed_and_interactive
    (env : AuthEnv) (rt : Option Json) (em : String)
    (hload : load_refresh_token env.fs = Except.ok rt)
    (htruthy : optJsonTruthy rt = true)
    (hval : env.storedMeResult = Except.error em) :
    (authenticate env).removedTokenFile = true
    ∧ (authenticate env).interactive = true := by
  have hex : tokenFileExists env.fs = true := by
    cases hfs : env.fs with
    | absent =>
      rw [hfs] at hload
      simp [load_refresh_token] at hload
      rw [← hload] at htruthy
      simp [optJsonTruthy] at htruthy
    | unparseable =>
      rw [hfs] at hload
      simp [load_refresh_token] at hload
      rw [← hload] at htruthy
      simp [optJsonTruthy] at htruthy
    | parsed j => rfl
  unfold authenticate
  rw [hload]
  simp only [htruthy, if_true, hval]
  rw [hex]
  exact ⟨rfl, rfl⟩

theorem invalid_stored_token_removed_and_interactive_witness :
    (authenticate
      { fs := TokenFile.parsed (Json.obj [("refresh_token", Json.str "tok")])
        storedMeResult := Except.error "invalid"
        callbackQuery := [("code", "abc")]
        exchangeResult := Except.ok "newtok"
        finalMeResult := Except.ok "user" }).removedTokenFile = true
    ∧ (authenticate
      { fs := TokenFile.parsed (Json.obj [("refresh_token", Json.str "tok")])
        storedMeResult := Except.error "invalid"
        callbackQuery := [("code", "abc")]
        exchangeResult := Except.ok "newtok"
        finalMeResult := Except.ok "user" }).interactive = true :=
  invalid_stored_token_removed_and_interactive
    { fs := TokenFile.parsed (Json.obj [("refresh_token", Json.str "tok")])
      storedMeResult := Except.error "invalid"
      callbackQuery := [("code", "abc")]
      exchangeResult := Except.ok "newtok"
      finalMeResult := Except.ok "user" }
    (some (Json.str "tok")) "invalid" rfl rfl rfl

/-- C8 (code divergence): the state parameter of the authorization URL is
the fixed literal `'random_state'` (line 154) on every interactive
bootstrap — identical across runs — not a freshly generated unpredictable
value. -/
theorem oauth_state_param_is_fixed_constant
    (fs fs2 : TokenFile) (removed removed2 : Bool) (env env2 : AuthEnv) :
    (interactiveFlow fs removed env).authUrlState = some "random_state"
    ∧ (interactiveFlow fs removed env).authUrlState
        = (interactiveFlow fs2 removed2 env2).authUrlState :=
  ⟨rfl, rfl⟩

/-- C9: when the single callback request carries neither a `code` nor an
`error` parameter, the handler records nothing and sends no HTTP response,
and `authenticate` (having handled that one request) raises
"No authorization code received" instead of waiting for another request. -/
theorem callback_without_code_or_error_raises
    (env : AuthEnv)
    (hcode : parse_qs_first env.callbackQuery "code" = none)
    (herr : parse_qs_first env.callbackQuery "error" = none)
    (hint : (authenticate env).interactive = true) :
    do_GET env.callbackQuery { auth_code := none, auth_error := none }
      = ({ auth_code := none, auth_error := none }, none)
    ∧ (authenticate env).outcome = Except.error "No authorization code received"
    ∧ (authenticate env).handledRequests = 1
    ∧ (authenticate env).httpResponse = none := by
  have hdo : do_GET env.callbackQuery { auth_code := none, auth_error := none }
      = ({ auth_code := none, auth_error := none }, none) := by
    simp [do_GET, hcode, herr]
  have hflow : ∀ fs removed,
      interactiveFlow fs removed env
        = { fs := fs
            outcome := Except.error "No authorization code received"
            interactive := true
            removedTokenFile := removed
            handledRequests := 1
            authUrlState := some "random_state"
            httpResponse := none } := by
    intro fs removed
    simp [interactiveFlow, hdo, pyStrOptTruthy]
  refine ⟨hdo, ?_⟩
  unfold authenticate at hint ⊢
  cases hl : load_refresh_token env.fs with
  | error e =>
    rw [hl] at hint
    simp at hint
  | ok rt =>
    rw [hl] at hint
    by_cases ht : optJsonTruthy rt = true
    · simp only [ht, if_true] at hint ⊢
      cases hm : env.storedMeResult with
      | ok name =>
        rw [hm] at hint
        simp at hint
      | error e2 =>
        simp [hflow]
    · simp [ht, hflow]

theorem callback_without_code_or_error_raises_witness :
    do_GET ([] : List (String × String)) { auth_code := none, auth_error := none }
      = ({ auth_code := none, auth_error := none }, none)
    ∧ (authenticate
        { fs := TokenFile.absent
          storedMeResult := Except.error "x"
          callbackQuery := []
          exchangeResult := Except.ok "t"
          finalMeResult := Except.ok "u" }).outcome
      = Except.error "No authorization code received"
    ∧ (authenticate
        { fs := TokenFile.absent
          storedMeResult := Except.error "x"
          callbackQuery := []
          exchangeResult := Except.ok "t"
          finalMeResult := Except.ok "u" }).handledRequests = 1
    ∧ (authenticate
        { fs := TokenFile.absent
          storedMeResult := Except.error "x"
          callbackQuery := []
          exchangeResult := Except.ok "t"
          finalMeResult := Except.ok "u" }).httpResponse = none :=
  callback_without_code_or_error_raises
    { fs := TokenFile.absent
      storedMeResult := Except.error "x"
      callbackQuery := []
      exchangeResult := Except.ok "t"
      finalMeResult := Except.ok "u" } rfl rfl rfl

end RedditDeleter
